import Mathlib

/-!
Verification of the order admission pipeline and tracking dispatcher of the
mojawharati storefront.  The definitions below are a shallow embedding of
the two Supabase edge functions:

* `supabase/functions/create-order/index.ts` — validation, Turnstile bot
  verification, rate limiting, duplicate detection, server-side pricing,
  persistence with compensating rollback, rate-limit bookkeeping, cart
  cleanup;
* `supabase/functions/meta-server-events/index.ts` — the Meta conversions
  dispatcher with its delivered-trigger queue.

The database is modelled as explicit lists of rows (tables keep rows in
insertion order, which is what an unordered PostgREST select returns in the
model).  External effects that influence control flow (the Turnstile
verification result, query/insert errors) are injected through a `World`
record; monetary amounts are natural numbers of DZD centimes and timestamps
are natural numbers of milliseconds.
-/

namespace Mojawharati

/-- Extracts the row of a query that used PostgREST single-object mode:
data is non-null exactly when precisely one row matched. -/
def single? {α : Type} (l : List α) : Option α :=
  match l with
  | [x] => some x
  | _ => none

/-- Whitespace test used by the character-level model of String.prototype.trim. -/
def isWs (c : Char) : Bool :=
  c == ' ' || c == '\t' || c == '\n' || c == '\r'

/-- Drops leading whitespace characters. -/
def trimL (l : List Char) : List Char :=
  match l with
  | [] => []
  | c :: r => if isWs c then trimL r else c :: r

/-- Character-level model of JavaScript String.prototype.trim. -/
def strTrim (s : String) : String :=
  ⟨(trimL ((trimL s.data.reverse)).reverse)⟩

/-- Model of JavaScript substring(0, 500) on the user agent. -/
def strTake500 (s : String) : String :=
  ⟨s.data.take 500⟩

/-- Trims an optional field and maps an empty result to null, as in
body.commune?.trim() || null. -/
def trimOpt (s : Option String) : Option String :=
  match s with
  | none => none
  | some v => if strTrim v == "" then none else some (strTrim v)

/-- Row of the products table (the columns selected by create-order). -/
structure Product where
  id : String
  name : String
  price : Nat
  is_active : Bool
deriving DecidableEq

/-- Row of the shipping_rates table (the columns selected by create-order). -/
structure ShippingRate where
  wilaya_code : String
  delivery_type : String
  price : Nat
  is_enabled : Bool
deriving DecidableEq

/-- Variant options attached to a cart item. -/
structure ProductOptions where
  size : Option String
  color : Option String
deriving DecidableEq

/-- A submitted cart item.  The client_price field models a price field the
client may smuggle into the JSON body; the TypeScript interface does not
declare it and the function never reads it. -/
structure CartItem where
  product_id : String
  quantity : Nat
  options : Option ProductOptions
  client_price : Option Nat
deriving DecidableEq

/-- The create-order request body. -/
structure OrderRequest where
  full_name : String
  phone : String
  wilaya : String
  commune : Option String
  delivery_type : String
  address : Option String
  note : Option String
  cart_items : List CartItem
  turnstile_token : String
  event_id : String
  cart_id : Option String
deriving DecidableEq

/-- Row of the orders table as inserted by create-order. -/
structure OrderRow where
  id : Nat
  full_name : String
  phone : String
  wilaya : String
  commune : Option String
  address : Option String
  delivery_type : String
  note : Option String
  subtotal : Nat
  shipping : Nat
  total : Nat
  status : String
  ip_address : String
  user_agent : String
  event_id : String
  created_at : Nat
deriving DecidableEq

/-- Row of the order_items table as inserted by create-order. -/
structure OrderItemRow where
  order_id : Nat
  product_id : String
  product_name : String
  price : Nat
  quantity : Nat
  selected_size : Option String
  selected_color : Option String
  options : Option ProductOptions
deriving DecidableEq

/-- Row of the rate_limits table. -/
structure RateLimitRow where
  identifier : String
  identifier_type : String
  action : String
  count : Nat
  window_start : Nat
deriving DecidableEq

/-- The persistent store visible to create-order.  Lists keep rows in
insertion order. -/
structure DB where
  wilayas : List String
  products : List Product
  shipping_rates : List ShippingRate
  orders : List OrderRow
  order_items : List OrderItemRow
  order_status_history : List (Nat × String)
  rate_limits : List RateLimitRow
  carts : List String
  next_order_id : Nat
deriving DecidableEq

/-- Externally injected outcomes: the Turnstile verdict and which store
operations fail.  Only operations whose error the code inspects are
represented. -/
structure World where
  turnstile_success : Bool
  products_query_error : Bool
  shipping_query_error : Bool
  order_insert_error : Bool
  items_insert_error : Bool
deriving DecidableEq

/-- The HTTP response returned by create-order. -/
structure Response where
  status : Nat
  success : Bool
  message : Option String
  order_id : Option Nat
  total : Option Nat
deriving DecidableEq

/-- The errorResponse helper of create-order. -/
def errResp (msg : String) (st : Nat) : Response :=
  { status := st, success := false, message := some msg, order_id := none, total := none }

def msgNameRequired : String := "الاسم مطلوب"
def msgPhoneInvalid : String := "رقم الهاتف غير صحيح"
def msgWilayaMissing : String := "الولاية غير موجودة"
def msgDeliveryType : String := "نوع التوصيل غير صحيح"
def msgAddressRequired : String := "العنوان مطلوب للتوصيل المنزلي"
def msgEmptyCart : String := "السلة فارغة"
def msgTurnstile : String := "فشل التحقق الأمني"
def msgRateIp : String := "تم تجاوز الحد المسموح من الطلبات"
def msgRatePhone : String := "تم تجاوز الحد المسموح من الطلبات لهذا الرقم"
def msgDup : String := "هذا الطلب مسجل مسبقاً"
def msgProductsLoad : String := "خطأ في تحميل المنتجات"
def msgInactive : String := "بعض المنتجات غير متاحة"
def msgShippingUnavailable : String := "التوصيل غير متاح لهذه الولاية"
def msgPersist : String := "خطأ في إنشاء الطلب"
def msgUnexpected : String := "حدث خطأ غير متوقع"

/-- The Algerian mobile phone check of create-order, regex 0[567]\d{8}
anchored on both sides. -/
def phoneRegexTest (s : String) : Bool :=
  match s.data with
  | c0 :: c1 :: rest =>
      c0 == '0' && (c1 == '5' || c1 == '6' || c1 == '7') &&
        rest.length == 8 && rest.all (fun c => c.isDigit)
  | _ => false

/-- Modelled from the spec wording of the phone rule: total length ten,
leading zero, second digit five six or seven, remaining characters digits.
Used only to compare the implemented regex against the specification. -/
def phoneSpecAccepts (s : String) : Bool :=
  s.length == 10 &&
  (match s.data with
   | c0 :: c1 :: rest =>
       c0 == '0' && (c1 == '5' || c1 == '6' || c1 == '7') &&
         rest.all (fun c => c.isDigit)
   | _ => false)

/-- The VALIDATION block of create-order, returning the first failing
check's localized message and status, in source order. -/
def validateOrder (db : DB) (req : OrderRequest) : Option (String × Nat) :=
  if strTrim req.full_name == "" then some (msgNameRequired, 400)
  else if !(phoneRegexTest req.phone) then some (msgPhoneInvalid, 400)
  else if (single? (db.wilayas.filter (fun c => c == req.wilaya))).isNone then
    some (msgWilayaMissing, 400)
  else if !(req.delivery_type == "office" || req.delivery_type == "home") then
    some (msgDeliveryType, 400)
  else if req.delivery_type == "home" &&
      (match req.address with
       | none => true
       | some a => strTrim a == "") then
    some (msgAddressRequired, 400)
  else if req.cart_items.isEmpty then some (msgEmptyCart, 400)
  else none

/-- One hour in milliseconds. -/
def HOUR : Nat := 3600000

/-- Five minutes in milliseconds. -/
def FIVE_MIN : Nat := 300000

/-- The rows the rate-limit check query matches: same identifier, type and
action, with window_start within the last hour. -/
def activeRateRows (db : DB) (now : Nat) (ident idType act : String) : List RateLimitRow :=
  db.rate_limits.filter (fun r =>
    r.identifier == ident && r.identifier_type == idType && r.action == act &&
      decide (now - HOUR ≤ r.window_start))

/-- Threshold test of the rate-limit check: an active counter was read and
its count reached the limit. -/
def rateHit (o : Option RateLimitRow) (threshold : Nat) : Bool :=
  match o with
  | some r => decide (threshold ≤ r.count)
  | none => false

/-- The unordered duplicate-detection query: same phone, created within the
last five minutes, rows in table order. -/
def recentOrdersFor (db : DB) (now : Nat) (phone : String) : List OrderRow :=
  db.orders.filter (fun o => o.phone == phone && decide (now - FIVE_MIN ≤ o.created_at))

/-- Items of one order, as fetched for the duplicate comparison. -/
def itemsOf (db : DB) (oid : Nat) : List OrderItemRow :=
  db.order_items.filter (fun it => it.order_id == oid)

/-- The duplicate comparison of create-order: the counts match and every
submitted pair occurs among the prior items. -/
def isDuplicateCart (recentItems : List OrderItemRow) (cart : List CartItem) : Bool :=
  recentItems.length == cart.length &&
  cart.all (fun item => recentItems.any (fun ri =>
    ri.product_id == item.product_id && ri.quantity == item.quantity))

/-- Whether the request is rejected as a duplicate: some same-phone order
exists in the window and the first row returned matches the cart. -/
def dupHit (db : DB) (now : Nat) (req : OrderRequest) : Bool :=
  match (recentOrdersFor db now req.phone).head? with
  | some o => isDuplicateCart (itemsOf db o.id) req.cart_items
  | none => false

/-- The products batch lookup of create-order (id in productIds). -/
def productsFor (db : DB) (ids : List String) : List Product :=
  db.products.filter (fun p => ids.contains p.id)

/-- An order-item snapshot built during pricing. -/
structure OrderItemSnap where
  product_id : String
  product_name : String
  price : Nat
  quantity : Nat
deriving DecidableEq

/-- The mapping over cart items of create-order; the none case corresponds
to the thrown Product-not-found error (caught by the outer handler). -/
def buildOrderItems (products : List Product) (cart : List CartItem) :
    Option (List OrderItemSnap) :=
  match cart with
  | [] => some []
  | item :: rest =>
    match products.find? (fun p => p.id == item.product_id) with
    | none => none
    | some p =>
      match buildOrderItems products rest with
      | none => none
      | some snaps =>
        some ({ product_id := p.id, product_name := p.name, price := p.price,
                quantity := item.quantity } :: snaps)

/-- The snapshots create-order builds for a request. -/
def cartSnaps (db : DB) (req : OrderRequest) : Option (List OrderItemSnap) :=
  buildOrderItems (productsFor db (req.cart_items.map (fun i => i.product_id)))
    req.cart_items

/-- The subtotal accumulated by create-order: sum of price times quantity
over the snapshots. -/
def codeSubtotal (snaps : List OrderItemSnap) : Nat :=
  (snaps.map (fun s => s.price * s.quantity)).sum

/-- Specification-side subtotal: sum over cart items of the server-stored
price of the referenced product times the quantity.  Written from the spec
wording, to be compared with the pipeline's computation. -/
def specSubtotal (ps : List Product) (cart : List CartItem) : Nat :=
  (cart.map (fun i =>
    (((ps.find? (fun p => p.id == i.product_id)).map (fun p => p.price)).getD 0)
      * i.quantity)).sum

/-- The shipping-rate lookup of create-order (single-object mode on
wilaya_code and delivery_type). -/
def shippingFor (db : DB) (w dt : String) : Option ShippingRate :=
  single? (db.shipping_rates.filter (fun r => r.wilaya_code == w && r.delivery_type == dt))

/-- Options recorded for a product id: the Map built by create-order keeps
the last cart entry for each product id. -/
def lastOptionsFor (cart : List CartItem) (pid : String) : Option ProductOptions :=
  match cart.reverse.find? (fun ci => ci.product_id == pid) with
  | none => none
  | some ci => ci.options

/-- The filter of the rate-limit update statement: identifier, type and
action match; note the absence of any window_start condition. -/
def rateKeyMatches (row : RateLimitRow) (ident idType : String) : Bool :=
  row.identifier == ident && row.identifier_type == idType && row.action == "create_order"

/-- The rate-limit record step for one key: update every row matching
identifier, type and action (the update carries no window filter) to the
read count plus one, or insert a fresh window when nothing active was read. -/
def recordRateRows (rows : List RateLimitRow) (now : Nat) (readRow : Option RateLimitRow)
    (ident idType : String) : List RateLimitRow :=
  match readRow with
  | some r =>
    rows.map (fun row =>
      if rateKeyMatches row ident idType
      then { row with count := r.count + 1 } else row)
  | none =>
    rows ++ [{ identifier := ident, identifier_type := idType, action := "create_order",
               count := 1, window_start := now }]

/-- Cart-draft cleanup: body.cart_id is only acted on when truthy. -/
def deleteCart (db : DB) (cartId : Option String) : DB :=
  match cartId with
  | none => db
  | some cid =>
    if cid == "" then db
    else { db with carts := db.carts.filter (fun c => !(c == cid)) }

/-- The order row create-order inserts. -/
def orderRowFor (db : DB) (now : Nat) (clientIP userAgent : String) (req : OrderRequest)
    (subtotal shipping : Nat) : OrderRow :=
  { id := db.next_order_id
    full_name := strTrim req.full_name
    phone := req.phone
    wilaya := req.wilaya
    commune := trimOpt req.commune
    address := trimOpt req.address
    delivery_type := req.delivery_type
    note := trimOpt req.note
    subtotal := subtotal
    shipping := shipping
    total := subtotal + shipping
    status := "new"
    ip_address := clientIP
    user_agent := strTake500 userAgent
    event_id := req.event_id
    created_at := now }

/-- The item rows create-order inserts for an order id. -/
def itemRowsFor (cart : List CartItem) (oid : Nat) (snaps : List OrderItemSnap) :
    List OrderItemRow :=
  snaps.map (fun s =>
    { order_id := oid
      product_id := s.product_id
      product_name := s.product_name
      price := s.price
      quantity := s.quantity
      selected_size := (lastOptionsFor cart s.product_id).bind (fun op => op.size)
      selected_color := (lastOptionsFor cart s.product_id).bind (fun op => op.color)
      options := lastOptionsFor cart s.product_id })

/-- The gate sequence of create-order before persistence, returning the
first failure's message and status in source order: validation, Turnstile,
IP then phone rate limit, duplicate detection, product load and activity,
snapshot build (the thrown error surfaces as the generic 500), shipping. -/
def gateFailure (db : DB) (now : Nat) (clientIP : String) (req : OrderRequest)
    (w : World) : Option (String × Nat) :=
  match validateOrder db req with
  | some e => some e
  | none =>
    if !w.turnstile_success then some (msgTurnstile, 400)
    else if rateHit (single? (activeRateRows db now clientIP "ip" "create_order")) 10 then
      some (msgRateIp, 429)
    else if rateHit (single? (activeRateRows db now req.phone "phone" "create_order")) 3 then
      some (msgRatePhone, 429)
    else if dupHit db now req then some (msgDup, 400)
    else
      let products := productsFor db (req.cart_items.map (fun i => i.product_id))
      if w.products_query_error || products.isEmpty then some (msgProductsLoad, 500)
      else if 0 < (products.filter (fun p => !p.is_active)).length then
        some (msgInactive, 400)
      else
        match buildOrderItems products req.cart_items with
        | none => some (msgUnexpected, 500)
        | some _ =>
          if w.shipping_query_error then some (msgShippingUnavailable, 400)
          else
            match shippingFor db req.wilaya req.delivery_type with
            | none => some (msgShippingUnavailable, 400)
            | some sr =>
              if !sr.is_enabled then some (msgShippingUnavailable, 400) else none

/-- The persistence tail of create-order: insert the order, insert the item
rows (deleting the order again if that fails), append the status history,
record the rate limits read earlier, delete the cart draft, answer 200. -/
def persistPhase (db : DB) (now : Nat) (clientIP userAgent : String) (req : OrderRequest)
    (w : World) : Response × DB :=
  let snaps := (cartSnaps db req).getD []
  let subtotal := codeSubtotal snaps
  let shipping := ((shippingFor db req.wilaya req.delivery_type).map
    (fun r => r.price)).getD 0
  if w.order_insert_error then (errResp msgPersist 500, db)
  else
    let oid := db.next_order_id
    let row := orderRowFor db now clientIP userAgent req subtotal shipping
    let db1 := { db with orders := db.orders ++ [row], next_order_id := oid + 1 }
    if w.items_insert_error then
      (errResp msgPersist 500,
        { db1 with orders := db1.orders.filter (fun o => !(o.id == oid)) })
    else
      let db2 := { db1 with order_items := db1.order_items ++ itemRowsFor req.cart_items oid snaps }
      let db3 := { db2 with order_status_history := db2.order_status_history ++ [(oid, "new")] }
      let ipRead := single? (activeRateRows db now clientIP "ip" "create_order")
      let phoneRead := single? (activeRateRows db now req.phone "phone" "create_order")
      let db4 := { db3 with rate_limits := recordRateRows db3.rate_limits now ipRead clientIP "ip" }
      let db5 := { db4 with rate_limits := recordRateRows db4.rate_limits now phoneRead req.phone "phone" }
      let db6 := deleteCart db5 req.cart_id
      ({ status := 200, success := true, message := none, order_id := some oid,
         total := some (subtotal + shipping) }, db6)

/-- The whole create-order handler: run the gates, then persist. -/
def createOrder (db : DB) (now : Nat) (clientIP userAgent : String) (req : OrderRequest)
    (w : World) : Response × DB :=
  match gateFailure db now clientIP req w with
  | some (msg, st) => (errResp msg st, db)
  | none => persistPhase db now clientIP userAgent req w

/-- Runs a list of requests in sequence, each given as time, client IP,
user agent and body, threading the store. -/
def runOrders (db : DB) (jobs : List (Nat × String × String × OrderRequest)) (w : World) :
    List Response × DB :=
  match jobs with
  | [] => ([], db)
  | (now, ip, ua, req) :: rest =>
    let r := createOrder db now ip ua req w
    let rs := runOrders r.2 rest w
    (r.1 :: rs.1, rs.2)

/-- Clears the client-supplied price field of a cart item. -/
def stripClientPrice (i : CartItem) : CartItem :=
  { i with client_price := none }

/-- The same request with every client-supplied price field cleared. -/
def stripReq (req : OrderRequest) : OrderRequest :=
  { req with cart_items := req.cart_items.map stripClientPrice }

/-!  Model of the meta-server-events dispatcher.  The outbound Conversions
API payload assembly (PII hashing, custom data) is abstracted to the fact
that an outbound call happens; control flow, the settings read and the
pending_tracking_events insertion are modelled from the source. -/

/-- The tracking request body of meta-server-events. -/
structure TrackingEvent where
  event_name : String
  event_id : String
  phone : Option String
  value : Option Nat
  currency : Option String
  order_id : Option String
  content_ids : List String
deriving DecidableEq

/-- Row of the pending_tracking_events table as inserted by the dispatcher. -/
structure PendingRow where
  order_id : String
  event_name : String
  event_id : String
  event_data : TrackingEvent
  trigger_status : String
deriving DecidableEq

/-- Observable effects of one dispatcher call: whether the settings table
was queried, whether an outbound platform call was made, whether the HTTP
answer reports success, and its skip or queue message when one exists. -/
structure MetaEffects where
  settingsRead : Bool
  outboundCall : Bool
  ok : Bool
  message : Option String
deriving DecidableEq

/-- Truthiness of body.order_id: present and non-empty. -/
def orderIdPresent (ev : TrackingEvent) : Bool :=
  match ev.order_id with
  | none => false
  | some oid => !(oid == "")

/-- The purchase_event setting resolution: settings?.value || "confirmed". -/
def resolvedPurchaseTrigger (settings : List (String × String)) : String :=
  match single? (settings.filter (fun kv => kv.1 == "purchase_event")) with
  | none => "confirmed"
  | some kv => if kv.2 == "" then "confirmed" else kv.2

/-- The meta-server-events handler: skip silently when credentials are
unconfigured; queue Purchase events tied to an order when the resolved
trigger is delivered; otherwise send immediately. -/
def metaServerEvents (pixelId accessToken : Option String)
    (settings : List (String × String)) (pending : List PendingRow)
    (ev : TrackingEvent) (metaOk : Bool) : MetaEffects × List PendingRow :=
  match pixelId, accessToken with
  | some _, some _ =>
    if ev.event_name == "Purchase" && orderIdPresent ev then
      if resolvedPurchaseTrigger settings == "delivered" then
        ({ settingsRead := true, outboundCall := false, ok := true,
           message := some "Event queued for delivery status" },
         pending ++ [{ order_id := ev.order_id.getD "", event_name := ev.event_name,
                       event_id := ev.event_id, event_data := ev,
                       trigger_status := "delivered" }])
      else
        ({ settingsRead := true, outboundCall := true, ok := metaOk, message := none },
         pending)
    else
      ({ settingsRead := false, outboundCall := true, ok := metaOk, message := none },
       pending)
  | _, _ =>
    ({ settingsRead := false, outboundCall := false, ok := true,
       message := some "Tracking skipped - not configured" }, pending)

/-!  Concrete stores and requests used by the scenario parts of the claims
and by the witnesses. -/

/-- A catalog product used in the scenarios. -/
def prodA : Product := { id := "A", name := "Prod", price := 2500, is_active := true }

/-- A baseline store: one wilaya, one active product, one enabled office
shipping rate, empty operational tables. -/
def db0 : DB :=
  { wilayas := ["16"]
    products := [prodA]
    shipping_rates := [{ wilaya_code := "16", delivery_type := "office", price := 400,
                         is_enabled := true }]
    orders := []
    order_items := []
    order_status_history := []
    rate_limits := []
    carts := []
    next_order_id := 1 }

/-- The world in which every external interaction succeeds. -/
def w0 : World :=
  { turnstile_success := true, products_query_error := false,
    shipping_query_error := false, order_insert_error := false,
    items_insert_error := false }

/-- A well-formed request for the scenario store: one unit of product A. -/
def mkReq (phone : String) (qty : Nat) : OrderRequest :=
  { full_name := "Ali"
    phone := phone
    wilaya := "16"
    commune := none
    delivery_type := "office"
    address := none
    note := none
    cart_items := [{ product_id := "A", quantity := qty, options := none,
                     client_price := none }]
    turnstile_token := "tok"
    event_id := "ev1"
    cart_id := none }

/-- Eleven submissions from one IP within one hour, distinct phones. -/
def jobsIp : List (Nat × String × String × OrderRequest) :=
  [ (7200000, "1.1.1.1", "ua", mkReq "0550000001" 1)
  , (7200000, "1.1.1.1", "ua", mkReq "0550000002" 1)
  , (7200000, "1.1.1.1", "ua", mkReq "0550000003" 1)
  , (7200000, "1.1.1.1", "ua", mkReq "0550000004" 1)
  , (7200000, "1.1.1.1", "ua", mkReq "0550000005" 1)
  , (7200000, "1.1.1.1", "ua", mkReq "0550000006" 1)
  , (7200000, "1.1.1.1", "ua", mkReq "0550000007" 1)
  , (7200000, "1.1.1.1", "ua", mkReq "0550000008" 1)
  , (7200000, "1.1.1.1", "ua", mkReq "0550000009" 1)
  , (7200000, "1.1.1.1", "ua", mkReq "0550000010" 1)
  , (7200000, "1.1.1.1", "ua", mkReq "0560000099" 1) ]

/-- Four submissions from one phone within one hour, distinct carts. -/
def jobsPhone : List (Nat × String × String × OrderRequest) :=
  [ (7200000, "2.2.2.2", "ua", mkReq "0551112222" 1)
  , (7200000, "2.2.2.2", "ua", mkReq "0551112222" 2)
  , (7200000, "2.2.2.2", "ua", mkReq "0551112222" 3)
  , (7200000, "2.2.2.2", "ua", mkReq "0551112222" 4) ]

/-- An order row used by the duplicate-detection counterexample. -/
def dupOrder (oid : Nat) (created qty : Nat) : OrderRow :=
  { id := oid, full_name := "Ali", phone := "0551112222", wilaya := "16",
    commune := none, address := none, delivery_type := "office", note := none,
    subtotal := 2500 * qty, shipping := 400, total := 2500 * qty + 400,
    status := "new", ip_address := "3.3.3.3", user_agent := "ua",
    event_id := "e0", created_at := created }

/-- Store for the duplicate-detection counterexample: two same-phone orders
within the five-minute window; the older one bought one unit, the newer
(most recent) one bought two units. -/
def dbDup : DB :=
  { db0 with
    orders := [dupOrder 1 100000 1, dupOrder 2 200000 2]
    order_items :=
      [ { order_id := 1, product_id := "A", product_name := "Prod", price := 2500,
          quantity := 1, selected_size := none, selected_color := none, options := none }
      , { order_id := 2, product_id := "A", product_name := "Prod", price := 2500,
          quantity := 2, selected_size := none, selected_color := none, options := none } ]
    next_order_id := 3 }

/-- Store for the rate-limit bookkeeping counterexample: the same IP key
holds an expired window with count five and an active window with count
one. -/
def dbRate : DB :=
  { db0 with
    rate_limits :=
      [ { identifier := "9.9.9.9", identifier_type := "ip", action := "create_order",
          count := 5, window_start := 0 }
      , { identifier := "9.9.9.9", identifier_type := "ip", action := "create_order",
          count := 1, window_start := 7199000 } ] }

/-- A saturated IP rate-limit row for the C3 witness. -/
def rowIpFull : RateLimitRow :=
  { identifier := "8.8.8.8", identifier_type := "ip", action := "create_order",
    count := 10, window_start := 7200000 }

/-- The baseline store with the saturated IP counter installed. -/
def dbIpLimited : DB := { db0 with rate_limits := [rowIpFull] }

/-- The baseline store with its only product made inactive. -/
def dbInactive : DB := { db0 with products := [{ prodA with is_active := false }] }

/-- A Purchase tracking event tied to an order, for the dispatcher claims. -/
def evPurchase : TrackingEvent :=
  { event_name := "Purchase", event_id := "ev1", phone := some "0551112222",
    value := some 5400, currency := some "DZD", order_id := some "ord1",
    content_ids := ["A"] }

/-!  General helper lemmas about the embedded operations. -/

theorem filter_id_ne (l : List OrderRow) (n : Nat) (h : ∀ o ∈ l, o.id ≠ n) :
    l.filter (fun o => !(o.id == n)) = l := by
  induction l with
  | nil => rfl
  | cons a t ih =>
    have ha : (a.id == n) = false := beq_eq_false_iff_ne.mpr (h a (by simp))
    simp [List.filter_cons, ha, ih (fun o ho => h o (by simp [ho]))]

theorem deleteCart_orders (db : DB) (cid : Option String) :
    (deleteCart db cid).orders = db.orders := by
  unfold deleteCart
  rcases cid with _ | c
  · rfl
  · dsimp only
    split <;> rfl

theorem deleteCart_order_items (db : DB) (cid : Option String) :
    (deleteCart db cid).order_items = db.order_items := by
  unfold deleteCart
  rcases cid with _ | c
  · rfl
  · dsimp only
    split <;> rfl

theorem deleteCart_rate_limits (db : DB) (cid : Option String) :
    (deleteCart db cid).rate_limits = db.rate_limits := by
  unfold deleteCart
  rcases cid with _ | c
  · rfl
  · dsimp only
    split <;> rfl

theorem deleteCart_history (db : DB) (cid : Option String) :
    (deleteCart db cid).order_status_history = db.order_status_history := by
  unfold deleteCart
  rcases cid with _ | c
  · rfl
  · dsimp only
    split <;> rfl

theorem contains_of_mem {l : List String} {a : String} (h : a ∈ l) :
    l.contains a = true := by
  induction l with
  | nil => cases h
  | cons b t ih =>
    rcases List.mem_cons.mp h with h1 | h2
    · simp only [List.contains_cons, Bool.or_eq_true]
      exact Or.inl (beq_iff_eq.mpr h1)
    · simp only [List.contains_cons, Bool.or_eq_true]
      exact Or.inr (ih h2)

theorem find?_filter_contains (l : List Product) (ids : List String) (pid : String)
    (h : ids.contains pid = true) :
    (l.filter (fun p => ids.contains p.id)).find? (fun p => p.id == pid)
      = l.find? (fun p => p.id == pid) := by
  induction l with
  | nil => rfl
  | cons a t ih =>
    rw [List.filter_cons]
    by_cases hca : ids.contains a.id = true
    · rw [if_pos hca]
      by_cases hpa : (a.id == pid) = true
      · have e1 := @List.find?_cons_of_pos _ (fun p : Product => p.id == pid) a
          (List.filter (fun p => ids.contains p.id) t) hpa
        have e2 := @List.find?_cons_of_pos _ (fun p : Product => p.id == pid) a t hpa
        rw [e1, e2]
      · have e1 := @List.find?_cons_of_neg _ (fun p : Product => p.id == pid) a
          (List.filter (fun p => ids.contains p.id) t) hpa
        have e2 := @List.find?_cons_of_neg _ (fun p : Product => p.id == pid) a t hpa
        rw [e1, e2, ih]
    · rw [if_neg hca, ih]
      by_cases hpa : (a.id == pid) = true
      · have heq : a.id = pid := by simpa using hpa
        rw [heq] at hca
        exact absurd h hca
      · have e2 := @List.find?_cons_of_neg _ (fun p : Product => p.id == pid) a t hpa
        rw [e2]

theorem find?_pred {α : Type} (q : α → Bool) (l : List α) (a : α)
    (h : l.find? q = some a) : q a = true := by
  induction l with
  | nil => cases h
  | cons b t ih =>
    by_cases hb : q b = true
    · have e := @List.find?_cons_of_pos _ q b t hb
      rw [e] at h
      cases h
      exact hb
    · have e := @List.find?_cons_of_neg _ q b t hb
      rw [e] at h
      exact ih h

theorem map_congr_mem {α β : Type} (l : List α) (f g : α → β)
    (h : ∀ a ∈ l, f a = g a) : l.map f = l.map g := by
  induction l with
  | nil => rfl
  | cons a t ih =>
    simp only [List.map_cons]
    rw [h a (by simp), ih (fun a ha => h a (by simp [ha]))]

theorem buildOrderItems_found (P : List Product) (cart : List CartItem)
    (snaps : List OrderItemSnap) (h : buildOrderItems P cart = some snaps) :
    ∀ i ∈ cart, ∃ p, P.find? (fun p => p.id == i.product_id) = some p := by
  induction cart generalizing snaps with
  | nil => intro i hi; cases hi
  | cons a t ih =>
    intro i hi
    unfold buildOrderItems at h
    rcases hf : P.find? (fun p => p.id == a.product_id) with _ | p <;> rw [hf] at h
    · cases h
    · rcases hb : buildOrderItems P t with _ | snaps2 <;> rw [hb] at h
      · cases h
      · rcases List.mem_cons.mp hi with h1 | h2
        · subst h1; exact ⟨p, hf⟩
        · exact ih snaps2 hb i h2

theorem codeSubtotal_build (P : List Product) (cart : List CartItem)
    (snaps : List OrderItemSnap) (h : buildOrderItems P cart = some snaps) :
    codeSubtotal snaps = (cart.map (fun i =>
      (((P.find? (fun p => p.id == i.product_id)).map (fun p => p.price)).getD 0)
        * i.quantity)).sum := by
  induction cart generalizing snaps with
  | nil =>
    unfold buildOrderItems at h
    cases h
    rfl
  | cons a t ih =>
    unfold buildOrderItems at h
    rcases hf : P.find? (fun p => p.id == a.product_id) with _ | p <;> rw [hf] at h
    · cases h
    · rcases hb : buildOrderItems P t with _ | snaps2 <;> rw [hb] at h
      · cases h
      · cases h
        simp [codeSubtotal, hf, List.map_cons, List.sum_cons] at ih ⊢
        rw [ih snaps2 hb]

theorem cartSnaps_spec (db : DB) (req : OrderRequest) (snaps : List OrderItemSnap)
    (h : cartSnaps db req = some snaps) :
    codeSubtotal snaps = specSubtotal db.products req.cart_items := by
  rw [codeSubtotal_build _ _ _ h]
  unfold specSubtotal productsFor
  refine congrArg List.sum (map_congr_mem _ _ _ ?_)
  intro i hi
  rw [find?_filter_contains]
  exact contains_of_mem (List.mem_map_of_mem (fun i => i.product_id) hi)

/-!  Lemmas showing the pipeline never reads the client-supplied price. -/

theorem stripReq_full_name (req : OrderRequest) : (stripReq req).full_name = req.full_name := rfl

theorem stripReq_phone (req : OrderRequest) : (stripReq req).phone = req.phone := rfl

theorem stripReq_wilaya (req : OrderRequest) : (stripReq req).wilaya = req.wilaya := rfl

theorem stripReq_commune (req : OrderRequest) : (stripReq req).commune = req.commune := rfl

theorem stripReq_delivery (req : OrderRequest) :
    (stripReq req).delivery_type = req.delivery_type := rfl

theorem stripReq_address (req : OrderRequest) : (stripReq req).address = req.address := rfl

theorem stripReq_note (req : OrderRequest) : (stripReq req).note = req.note := rfl

theorem stripReq_event_id (req : OrderRequest) : (stripReq req).event_id = req.event_id := rfl

theorem stripReq_cart_id (req : OrderRequest) : (stripReq req).cart_id = req.cart_id := rfl

theorem stripReq_items (req : OrderRequest) :
    (stripReq req).cart_items = req.cart_items.map stripClientPrice := rfl

theorem map_strip_pid (l : List CartItem) :
    (l.map stripClientPrice).map (fun i => i.product_id) = l.map (fun i => i.product_id) := by
  induction l with
  | nil => rfl
  | cons a t ih =>
    simp only [List.map_cons, ih]
    rfl

theorem isEmpty_map_strip (l : List CartItem) :
    (l.map stripClientPrice).isEmpty = l.isEmpty := by
  cases l <;> rfl

theorem isDuplicateCart_strip (ri : List OrderItemRow) (l : List CartItem) :
    isDuplicateCart ri (l.map stripClientPrice) = isDuplicateCart ri l := by
  unfold isDuplicateCart
  rw [List.length_map]
  congr 1
  induction l with
  | nil => rfl
  | cons a t ih =>
    simp only [List.map_cons, List.all_cons, ih]
    rfl

theorem buildOrderItems_strip (P : List Product) (l : List CartItem) :
    buildOrderItems P (l.map stripClientPrice) = buildOrderItems P l := by
  induction l with
  | nil => rfl
  | cons a t ih =>
    simp only [List.map_cons]
    unfold buildOrderItems
    rw [ih]
    rfl

theorem find?_map_strip (m : List CartItem) (pid : String) :
    (m.map stripClientPrice).find? (fun ci => ci.product_id == pid)
      = (m.find? (fun ci => ci.product_id == pid)).map stripClientPrice := by
  induction m with
  | nil => rfl
  | cons a t ih =>
    by_cases hp : (a.product_id == pid) = true
    · have e1 := @List.find?_cons_of_pos _ (fun ci : CartItem => ci.product_id == pid)
        (stripClientPrice a) (t.map stripClientPrice) hp
      have e2 := @List.find?_cons_of_pos _ (fun ci : CartItem => ci.product_id == pid) a t hp
      simp only [List.map_cons]
      rw [e1, e2]
      rfl
    · have e1 := @List.find?_cons_of_neg _ (fun ci : CartItem => ci.product_id == pid)
        (stripClientPrice a) (t.map stripClientPrice) hp
      have e2 := @List.find?_cons_of_neg _ (fun ci : CartItem => ci.product_id == pid) a t hp
      simp only [List.map_cons]
      rw [e1, e2, ih]

theorem lastOptionsFor_strip (l : List CartItem) (pid : String) :
    lastOptionsFor (l.map stripClientPrice) pid = lastOptionsFor l pid := by
  unfold lastOptionsFor
  rw [← List.map_reverse, find?_map_strip]
  rcases hf : l.reverse.find? (fun ci => ci.product_id == pid) with _ | ci <;> rw [hf] <;> rfl

theorem validateOrder_stripReq (db : DB) (req : OrderRequest) :
    validateOrder db (stripReq req) = validateOrder db req := by
  unfold validateOrder
  simp only [stripReq_full_name, stripReq_phone, stripReq_wilaya, stripReq_delivery,
    stripReq_address, stripReq_items, isEmpty_map_strip]

theorem dupHit_stripReq (db : DB) (now : Nat) (req : OrderRequest) :
    dupHit db now (stripReq req) = dupHit db now req := by
  unfold dupHit
  simp only [stripReq_phone, stripReq_items]
  rcases hh : (recentOrdersFor db now req.phone).head? with _ | o <;> simp only []
  rw [isDuplicateCart_strip]

theorem cartSnaps_stripReq (db : DB) (req : OrderRequest) :
    cartSnaps db (stripReq req) = cartSnaps db req := by
  unfold cartSnaps
  simp only [stripReq_items]
  rw [map_strip_pid, buildOrderItems_strip]

theorem itemRowsFor_strip (req : OrderRequest) (oid : Nat) (snaps : List OrderItemSnap) :
    itemRowsFor (stripReq req).cart_items oid snaps = itemRowsFor req.cart_items oid snaps := by
  unfold itemRowsFor
  refine map_congr_mem _ _ _ ?_
  intro s _
  simp only [stripReq_items]
  rw [lastOptionsFor_strip]

theorem orderRowFor_stripReq (db : DB) (now : Nat) (ip ua : String) (req : OrderRequest)
    (subtotal shipping : Nat) :
    orderRowFor db now ip ua (stripReq req) subtotal shipping
      = orderRowFor db now ip ua req subtotal shipping := by
  unfold orderRowFor
  simp only [stripReq_full_name, stripReq_phone, stripReq_wilaya, stripReq_commune,
    stripReq_address, stripReq_delivery, stripReq_note, stripReq_event_id]

theorem gateFailure_stripReq (db : DB) (now : Nat) (ip : String) (req : OrderRequest)
    (w : World) :
    gateFailure db now ip (stripReq req) w = gateFailure db now ip req w := by
  unfold gateFailure
  rw [validateOrder_stripReq]
  rcases hv : validateOrder db req with _ | e <;> simp only []
  simp only [stripReq_phone, stripReq_wilaya, stripReq_delivery, stripReq_items,
    map_strip_pid, dupHit_stripReq, buildOrderItems_strip]

theorem persistPhase_stripReq (db : DB) (now : Nat) (ip ua : String) (req : OrderRequest)
    (w : World) :
    persistPhase db now ip ua (stripReq req) w = persistPhase db now ip ua req w := by
  unfold persistPhase
  simp only [stripReq_phone, stripReq_wilaya, stripReq_delivery, stripReq_cart_id,
    cartSnaps_stripReq, itemRowsFor_strip, orderRowFor_stripReq]

theorem createOrder_stripReq (db : DB) (now : Nat) (ip ua : String) (req : OrderRequest)
    (w : World) :
    createOrder db now ip ua (stripReq req) w = createOrder db now ip ua req w := by
  unfold createOrder
  rw [gateFailure_stripReq]
  rcases hg : gateFailure db now ip req w with _ | e
  · simp only []
    rw [persistPhase_stripReq]
  · rcases e with ⟨m, s⟩
    simp only []

/-!  Shape lemmas for the two phases of createOrder. -/

theorem createOrder_gate_some (db : DB) (now : Nat) (ip ua : String) (req : OrderRequest)
    (w : World) (m : String) (s : Nat) (hg : gateFailure db now ip req w = some (m, s)) :
    createOrder db now ip ua req w = (errResp m s, db) := by
  unfold createOrder
  rw [hg]

theorem createOrder_gate_none (db : DB) (now : Nat) (ip ua : String) (req : OrderRequest)
    (w : World) (hg : gateFailure db now ip req w = none) :
    createOrder db now ip ua req w = persistPhase db now ip ua req w := by
  unfold createOrder
  rw [hg]

theorem persist_order_err (db : DB) (now : Nat) (ip ua : String) (req : OrderRequest)
    (w : World) (ho : w.order_insert_error = true) :
    persistPhase db now ip ua req w = (errResp msgPersist 500, db) := by
  unfold persistPhase
  rw [if_pos ho]

theorem persist_items_err (db : DB) (now : Nat) (ip ua : String) (req : OrderRequest)
    (w : World) (ho : w.order_insert_error = false) (hi : w.items_insert_error = true) :
    persistPhase db now ip ua req w
      = (errResp msgPersist 500,
         { db with
             orders := ((db.orders ++ [orderRowFor db now ip ua req
               (codeSubtotal ((cartSnaps db req).getD []))
               (((shippingFor db req.wilaya req.delivery_type).map
                 (fun r => r.price)).getD 0)]).filter
               (fun o => !(o.id == db.next_order_id)))
             next_order_id := db.next_order_id + 1 }) := by
  unfold persistPhase
  have h1 : ¬(w.order_insert_error = true) := by simp [ho]
  rw [if_neg h1, if_pos hi]

theorem persist_success (db : DB) (now : Nat) (ip ua : String) (req : OrderRequest)
    (w : World) (ho : w.order_insert_error = false) (hi : w.items_insert_error = false) :
    persistPhase db now ip ua req w =
      ({ status := 200, success := true, message := none,
         order_id := some db.next_order_id,
         total := some (codeSubtotal ((cartSnaps db req).getD [])
           + ((shippingFor db req.wilaya req.delivery_type).map (fun r => r.price)).getD 0) },
       deleteCart
         { db with
             orders := db.orders ++ [orderRowFor db now ip ua req
               (codeSubtotal ((cartSnaps db req).getD []))
               (((shippingFor db req.wilaya req.delivery_type).map
                 (fun r => r.price)).getD 0)]
             next_order_id := db.next_order_id + 1
             order_items := db.order_items
               ++ itemRowsFor req.cart_items db.next_order_id ((cartSnaps db req).getD [])
             order_status_history := db.order_status_history ++ [(db.next_order_id, "new")]
             rate_limits := recordRateRows
               (recordRateRows db.rate_limits now
                 (single? (activeRateRows db now ip "ip" "create_order")) ip "ip") now
               (single? (activeRateRows db now req.phone "phone" "create_order"))
               req.phone "phone" }
         req.cart_id) := by
  unfold persistPhase
  have h1 : ¬(w.order_insert_error = true) := by simp [ho]
  have h2 : ¬(w.items_insert_error = true) := by simp [hi]
  rw [if_neg h1, if_neg h2]

theorem gateFailure_none_facts (db : DB) (now : Nat) (ip : String) (req : OrderRequest)
    (w : World) (h : gateFailure db now ip req w = none) :
    validateOrder db req = none ∧
    w.turnstile_success = true ∧
    rateHit (single? (activeRateRows db now ip "ip" "create_order")) 10 = false ∧
    rateHit (single? (activeRateRows db now req.phone "phone" "create_order")) 3 = false ∧
    dupHit db now req = false ∧
    (∃ snaps, cartSnaps db req = some snaps) ∧
    ((productsFor db (req.cart_items.map (fun i => i.product_id))).filter
        (fun p => !p.is_active)).length = 0 ∧
    (∃ sr, shippingFor db req.wilaya req.delivery_type = some sr ∧ sr.is_enabled = true) := by
  unfold gateFailure at h
  rcases hv : validateOrder db req with _ | e <;> rw [hv] at h
  case some => simp at h
  dsimp only at h
  refine ⟨rfl, ?_⟩
  cases ht : w.turnstile_success <;> rw [ht] at h
  case false => simp at h
  refine ⟨rfl, ?_⟩
  simp only [Bool.not_true] at h
  rw [if_neg (by simp)] at h
  cases hip : rateHit (single? (activeRateRows db now ip "ip" "create_order")) 10 <;>
    rw [hip] at h
  case true => simp at h
  refine ⟨rfl, ?_⟩
  rw [if_neg (by simp)] at h
  cases hph : rateHit (single? (activeRateRows db now req.phone "phone" "create_order")) 3 <;>
    rw [hph] at h
  case true => simp at h
  refine ⟨rfl, ?_⟩
  rw [if_neg (by simp)] at h
  cases hd : dupHit db now req <;> rw [hd] at h
  case true => simp at h
  refine ⟨rfl, ?_⟩
  rw [if_neg (by simp)] at h
  rcases hpq : (w.products_query_error
      || (productsFor db (req.cart_items.map (fun i => i.product_id))).isEmpty) with _ | _ <;>
    rw [hpq] at h
  case true => simp at h
  rw [if_neg (by simp)] at h
  by_cases hinact :
      0 < ((productsFor db (req.cart_items.map (fun i => i.product_id))).filter
        (fun p => !p.is_active)).length
  case pos => rw [if_pos hinact] at h; simp at h
  rw [if_neg hinact] at h
  rcases hb : buildOrderItems (productsFor db (req.cart_items.map (fun i => i.product_id)))
      req.cart_items with _ | snaps <;> rw [hb] at h
  · simp at h
  · refine ⟨⟨snaps, hb⟩, by omega, ?_⟩
    dsimp only at h
    cases hsq : w.shipping_query_error <;> rw [hsq] at h
    · rw [if_neg (by simp)] at h
      rcases hsr : shippingFor db req.wilaya req.delivery_type with _ | sr <;> rw [hsr] at h
      · simp at h
      · dsimp only at h
        cases hen : sr.is_enabled <;> rw [hen] at h
        · simp at h
        · exact ⟨sr, rfl, hen⟩
    · simp at h

theorem gate_eval_ip (db : DB) (now : Nat) (ip : String) (req : OrderRequest) (w : World)
    (hv : validateOrder db req = none) (ht : w.turnstile_success = true)
    (hr : rateHit (single? (activeRateRows db now ip "ip" "create_order")) 10 = true) :
    gateFailure db now ip req w = some (msgRateIp, 429) := by
  unfold gateFailure
  rw [hv]
  dsimp only
  rw [ht]
  simp only [Bool.not_true]
  rw [if_neg (by simp), if_pos hr]

theorem gate_eval_phone (db : DB) (now : Nat) (ip : String) (req : OrderRequest) (w : World)
    (hv : validateOrder db req = none) (ht : w.turnstile_success = true)
    (hip : rateHit (single? (activeRateRows db now ip "ip" "create_order")) 10 = false)
    (hr : rateHit (single? (activeRateRows db now req.phone "phone" "create_order")) 3 = true) :
    gateFailure db now ip req w = some (msgRatePhone, 429) := by
  unfold gateFailure
  rw [hv]
  dsimp only
  rw [ht]
  simp only [Bool.not_true]
  rw [if_neg (by simp), if_neg (by simp [hip]), if_pos hr]

theorem gate_eval_dup (db : DB) (now : Nat) (ip : String) (req : OrderRequest) (w : World)
    (hv : validateOrder db req = none) (ht : w.turnstile_success = true)
    (hip : rateHit (single? (activeRateRows db now ip "ip" "create_order")) 10 = false)
    (hph : rateHit (single? (activeRateRows db now req.phone "phone" "create_order")) 3 = false)
    (hd : dupHit db now req = true) :
    gateFailure db now ip req w = some (msgDup, 400) := by
  unfold gateFailure
  rw [hv]
  dsimp only
  rw [ht]
  simp only [Bool.not_true]
  rw [if_neg (by simp), if_neg (by simp [hip]), if_neg (by simp [hph]), if_pos hd]

theorem gate_some_after_dup (db : DB) (now : Nat) (ip : String) (req : OrderRequest)
    (w : World) (hv : validateOrder db req = none) (ht : w.turnstile_success = true)
    (hip : rateHit (single? (activeRateRows db now ip "ip" "create_order")) 10 = false)
    (hph : rateHit (single? (activeRateRows db now req.phone "phone" "create_order")) 3 = false)
    (hd : dupHit db now req = false) (m : String) (s : Nat)
    (hg : gateFailure db now ip req w = some (m, s)) :
    m = msgProductsLoad ∨ m = msgInactive ∨ m = msgUnexpected ∨ m = msgShippingUnavailable := by
  unfold gateFailure at hg
  rw [hv] at hg
  dsimp only at hg
  rw [ht] at hg
  simp only [Bool.not_true] at hg
  rw [if_neg (by simp), if_neg (by simp [hip]), if_neg (by simp [hph]),
    if_neg (by simp [hd])] at hg
  split at hg
  · simp only [Option.some.injEq, Prod.mk.injEq] at hg
    exact Or.inl hg.1.symm
  · split at hg
    · simp only [Option.some.injEq, Prod.mk.injEq] at hg
      exact Or.inr (Or.inl hg.1.symm)
    · split at hg
      · simp only [Option.some.injEq, Prod.mk.injEq] at hg
        exact Or.inr (Or.inr (Or.inl hg.1.symm))
      · split at hg
        · simp only [Option.some.injEq, Prod.mk.injEq] at hg
          exact Or.inr (Or.inr (Or.inr hg.1.symm))
        · split at hg
          · simp only [Option.some.injEq, Prod.mk.injEq] at hg
            exact Or.inr (Or.inr (Or.inr hg.1.symm))
          · split at hg
            · simp only [Option.some.injEq, Prod.mk.injEq] at hg
              exact Or.inr (Or.inr (Or.inr hg.1.symm))
            · cases hg

theorem persist_message_ne (db : DB) (now : Nat) (ip ua : String) (req : OrderRequest)
    (w : World) : (persistPhase db now ip ua req w).1.message ≠ some msgDup := by
  cases ho : w.order_insert_error
  · cases hi : w.items_insert_error
    · rw [persist_success db now ip ua req w ho hi]
      exact fun hc => absurd (show (none : Option String) = some msgDup from hc) (by decide)
    · rw [persist_items_err db now ip ua req w ho hi]
      exact fun hc => absurd (show some msgPersist = some msgDup from hc) (by decide)
  · rw [persist_order_err db now ip ua req w ho]
    exact fun hc => absurd (show some msgPersist = some msgDup from hc) (by decide)

theorem createOrder_msg_ne_dup (db : DB) (now : Nat) (ip ua : String) (req : OrderRequest)
    (w : World) (hv : validateOrder db req = none) (ht : w.turnstile_success = true)
    (hip : rateHit (single? (activeRateRows db now ip "ip" "create_order")) 10 = false)
    (hph : rateHit (single? (activeRateRows db now req.phone "phone" "create_order")) 3 = false)
    (hd : dupHit db now req = false) :
    (createOrder db now ip ua req w).1.message ≠ some msgDup := by
  rcases hg : gateFailure db now ip req w with _ | e
  · rw [createOrder_gate_none db now ip ua req w hg]
    exact persist_message_ne db now ip ua req w
  · rcases e with ⟨m, s⟩
    rw [createOrder_gate_some db now ip ua req w m s hg]
    rcases gate_some_after_dup db now ip req w hv ht hip hph hd m s hg with
      rfl | rfl | rfl | rfl
    · exact fun hc => absurd (show some msgProductsLoad = some msgDup from hc) (by decide)
    · exact fun hc => absurd (show some msgInactive = some msgDup from hc) (by decide)
    · exact fun hc => absurd (show some msgUnexpected = some msgDup from hc) (by decide)
    · exact fun hc => absurd (show some msgShippingUnavailable = some msgDup from hc) (by decide)

theorem rateKeyMatches_facts (row : RateLimitRow) (ident idType : String)
    (h : rateKeyMatches row ident idType = true) :
    row.identifier = ident ∧ row.identifier_type = idType ∧ row.action = "create_order" := by
  unfold rateKeyMatches at h
  simp only [Bool.and_eq_true, beq_iff_eq] at h
  exact ⟨h.1.1, h.1.2, h.2⟩

theorem keyMatches_false_of_type (row : RateLimitRow) (ident idType : String)
    (h : row.identifier_type ≠ idType) : rateKeyMatches row ident idType = false := by
  unfold rateKeyMatches
  have hb : (row.identifier_type == idType) = false := beq_eq_false_iff_ne.mpr h
  simp [hb]

theorem record_keep_of_no_match (rows : List RateLimitRow) (now : Nat)
    (rd : Option RateLimitRow) (ident idType : String) (row : RateLimitRow)
    (hrow : row ∈ rows) (hm : rateKeyMatches row ident idType = false) :
    row ∈ recordRateRows rows now rd ident idType := by
  rcases rd with _ | r
  · simp only [recordRateRows]
    exact List.mem_append_left _ hrow
  · simp only [recordRateRows]
    refine List.mem_map.mpr ⟨row, hrow, ?_⟩
    rw [if_neg (by simp [hm])]

theorem record_bump_of_match (rows : List RateLimitRow) (now : Nat) (r : RateLimitRow)
    (ident idType : String) (row : RateLimitRow) (hrow : row ∈ rows)
    (hm : rateKeyMatches row ident idType = true) :
    { row with count := r.count + 1 } ∈ recordRateRows rows now (some r) ident idType := by
  simp only [recordRateRows]
  refine List.mem_map.mpr ⟨row, hrow, ?_⟩
  rw [if_pos hm]

theorem record_none_fresh (rows : List RateLimitRow) (now : Nat) (ident idType : String) :
    ({ identifier := ident, identifier_type := idType, action := "create_order",
       count := 1, window_start := now } : RateLimitRow)
      ∈ recordRateRows rows now none ident idType := by
  simp only [recordRateRows]
  exact List.mem_append_right _ (by simp)

theorem record_none_keep (rows : List RateLimitRow) (now : Nat) (ident idType : String)
    (row : RateLimitRow) (hrow : row ∈ rows) :
    row ∈ recordRateRows rows now none ident idType := by
  simp only [recordRateRows]
  exact List.mem_append_left _ hrow

theorem success_flags (db : DB) (now : Nat) (ip ua : String) (req : OrderRequest) (w : World)
    (h : (createOrder db now ip ua req w).1.success = true) :
    gateFailure db now ip req w = none ∧ w.order_insert_error = false ∧
      w.items_insert_error = false := by
  rcases hg : gateFailure db now ip req w with _ | e
  · rw [createOrder_gate_none db now ip ua req w hg] at h
    cases ho : w.order_insert_error
    · cases hi : w.items_insert_error
      · exact ⟨rfl, rfl, rfl⟩
      · rw [persist_items_err db now ip ua req w ho hi] at h
        simp [errResp] at h
    · rw [persist_order_err db now ip ua req w ho] at h
      simp [errResp] at h
  · rcases e with ⟨m, s⟩
    rw [createOrder_gate_some db now ip ua req w m s hg] at h
    simp [errResp] at h

theorem success_rate_limits (db : DB) (now : Nat) (ip ua : String) (req : OrderRequest)
    (w : World) (ho : w.order_insert_error = false) (hi : w.items_insert_error = false) :
    (persistPhase db now ip ua req w).2.rate_limits
      = recordRateRows
          (recordRateRows db.rate_limits now
            (single? (activeRateRows db now ip "ip" "create_order")) ip "ip") now
          (single? (activeRateRows db now req.phone "phone" "create_order"))
          req.phone "phone" := by
  rw [persist_success db now ip ua req w ho hi]
  dsimp only
  rw [deleteCart_rate_limits]

theorem success_orders (db : DB) (now : Nat) (ip ua : String) (req : OrderRequest)
    (w : World) (ho : w.order_insert_error = false) (hi : w.items_insert_error = false) :
    (persistPhase db now ip ua req w).2.orders
      = db.orders ++ [orderRowFor db now ip ua req
          (codeSubtotal ((cartSnaps db req).getD []))
          (((shippingFor db req.wilaya req.delivery_type).map (fun r => r.price)).getD 0)] := by
  rw [persist_success db now ip ua req w ho hi]
  dsimp only
  rw [deleteCart_orders]

theorem fail_tables (db : DB) (now : Nat) (ip ua : String) (req : OrderRequest) (w : World)
    (h : (createOrder db now ip ua req w).1.success = false) :
    ((∀ o ∈ db.orders, o.id ≠ db.next_order_id) →
        (createOrder db now ip ua req w).2.orders = db.orders) ∧
    (createOrder db now ip ua req w).2.order_items = db.order_items ∧
    (createOrder db now ip ua req w).2.rate_limits = db.rate_limits ∧
    (createOrder db now ip ua req w).2.carts = db.carts ∧
    (createOrder db now ip ua req w).2.order_status_history = db.order_status_history := by
  rcases hg : gateFailure db now ip req w with _ | e
  · rw [createOrder_gate_none db now ip ua req w hg] at h ⊢
    cases ho : w.order_insert_error
    · cases hi : w.items_insert_error
      · rw [persist_success db now ip ua req w ho hi] at h
        simp at h
      · rw [persist_items_err db now ip ua req w ho hi]
        refine ⟨?_, rfl, rfl, rfl, rfl⟩
        intro hfresh
        dsimp only
        rw [List.filter_append, filter_id_ne db.orders _ hfresh]
        simp [orderRowFor]
    · rw [persist_order_err db now ip ua req w ho]
      exact ⟨fun _ => rfl, rfl, rfl, rfl, rfl⟩
  · rcases e with ⟨m, s⟩
    rw [createOrder_gate_some db now ip ua req w m s hg]
    exact ⟨fun _ => rfl, rfl, rfl, rfl, rfl⟩

/-!  The claims. -/

/-- Claim C9: the Validator accepts a phone exactly when it matches the
pattern 0[567] followed by eight digits (ten characters in total); the
implemented regex test coincides with the specification predicate on every
string, the four sample phones behave as stated, and a failing phone is
rejected by validation with the 400 phone message. -/
theorem claim9_phone_validation :
    (∀ s : String, phoneRegexTest s = phoneSpecAccepts s) ∧
    phoneRegexTest "0551234567" = true ∧
    phoneRegexTest "0441234567" = false ∧
    phoneRegexTest "055123456" = false ∧
    phoneRegexTest "05512345678" = false ∧
    (∀ (db : DB) (req : OrderRequest), strTrim req.full_name ≠ "" →
      phoneRegexTest req.phone = false →
      validateOrder db req = some (msgPhoneInvalid, 400)) := by
  refine ⟨?_, by decide, by decide, by decide, by decide, ?_⟩
  · intro s
    rw [Bool.eq_iff_iff]
    unfold phoneRegexTest phoneSpecAccepts
    rcases hd : s.data with _ | ⟨c0, _ | ⟨c1, rest⟩⟩ <;>
      simp only [String.length, hd, List.length_nil, List.length_cons]
    · simp
    · simp
    · simp only [Bool.and_eq_true, Bool.or_eq_true, beq_iff_eq]
      constructor
      · rintro ⟨⟨⟨hA, hB⟩, hC⟩, hD⟩
        exact ⟨by omega, ⟨hA, hB⟩, hD⟩
      · rintro ⟨hL, ⟨hA, hB⟩, hD⟩
        exact ⟨⟨⟨hA, hB⟩, by omega⟩, hD⟩
  · intro db req hname hph
    unfold validateOrder
    have h1 : ¬((strTrim req.full_name == "") = true) := by simp [hname]
    have h2 : (!(phoneRegexTest req.phone)) = true := by rw [hph]; rfl
    rw [if_neg h1, if_pos h2]

/-- Witness for C9 at a concrete rejected phone. -/
theorem claim9_phone_validation_witness :
    validateOrder db0 (mkReq "0441234567" 1) = some (msgPhoneInvalid, 400) :=
  claim9_phone_validation.2.2.2.2.2 db0 (mkReq "0441234567" 1) (by decide) (by decide)

/-- Claim C10: the dispatcher checks credentials before the purchase_event
setting: with a missing pixel id or access token it answers success at once
with no settings read, no pending row and no outbound call, whatever the
event and settings; and a pending row can only ever be written for a
Purchase event with a present order id. -/
theorem claim10_credentials_check_first :
    (∀ (tok : Option String) (settings : List (String × String)) (pending : List PendingRow)
        (ev : TrackingEvent) (mOk : Bool),
      metaServerEvents none tok settings pending ev mOk
        = ({ settingsRead := false, outboundCall := false, ok := true,
             message := some "Tracking skipped - not configured" }, pending)) ∧
    (∀ (pid : Option String) (settings : List (String × String)) (pending : List PendingRow)
        (ev : TrackingEvent) (mOk : Bool),
      metaServerEvents pid none settings pending ev mOk
        = ({ settingsRead := false, outboundCall := false, ok := true,
             message := some "Tracking skipped - not configured" }, pending)) ∧
    (∀ (pid tok : Option String) (settings : List (String × String))
        (pending : List PendingRow) (ev : TrackingEvent) (mOk : Bool),
      (metaServerEvents pid tok settings pending ev mOk).2 ≠ pending →
        ev.event_name = "Purchase" ∧ ev.order_id ≠ none) := by
  refine ⟨?_, ?_, ?_⟩
  · intro tok settings pending ev mOk
    cases tok <;> rfl
  · intro pid settings pending ev mOk
    cases pid <;> rfl
  · intro pid tok settings pending ev mOk h
    rcases pid with _ | p
    · cases tok <;> exact absurd rfl h
    · rcases tok with _ | t
      · exact absurd rfl h
      · unfold metaServerEvents at h
        by_cases hp : (ev.event_name == "Purchase" && orderIdPresent ev) = true
        · have hp2 := hp
          simp only [Bool.and_eq_true, beq_iff_eq] at hp2
          refine ⟨hp2.1, fun hno => ?_⟩
          have h2 := hp2.2
          unfold orderIdPresent at h2
          rw [hno] at h2
          simp at h2
        · rw [if_neg hp] at h
          exact absurd rfl h

/-- Witness for C10 at a concrete queued Purchase event. -/
theorem claim10_credentials_check_first_witness :
    evPurchase.event_name = "Purchase" ∧ evPurchase.order_id ≠ none :=
  claim10_credentials_check_first.2.2 (some "pid") (some "tok")
    [("purchase_event", "delivered")] [] evPurchase true (by decide)

/-- Counterexample to claim C8 as stated: with the purchase_event setting
at delivered, a Purchase event tied to an order that reaches the dispatcher
while the credentials are unconfigured writes no PendingTrackingEvent row
at all (the event is dropped), so the delivered branch of the claim fails
without the credentials proviso. -/
theorem claim8_unconfigured_counterexample :
    resolvedPurchaseTrigger [("purchase_event", "delivered")] = "delivered" ∧
    evPurchase.event_name = "Purchase" ∧ evPurchase.order_id = some "ord1" ∧
    (metaServerEvents none (some "tok") [("purchase_event", "delivered")] [] evPurchase
      true).2 = [] ∧
    (metaServerEvents none (some "tok") [("purchase_event", "delivered")] [] evPurchase
      true).1.outboundCall = false := by
  refine ⟨rfl, rfl, rfl, rfl, rfl⟩

/-- Claim C8 (amended): provided the platform credentials (pixel id and
access token) are configured, a Purchase event tied to an order behaves as
claimed: when the resolved purchase_event setting is delivered a
PendingTrackingEvent row with trigger_status delivered is written and no
outbound call is made; when it is confirmed (the default when unset) an
immediate outbound call is made and no pending row is written. -/
theorem claim8_purchase_trigger (pid tok : String) (settings : List (String × String))
    (pending : List PendingRow) (ev : TrackingEvent) (mOk : Bool) (oid : String)
    (hn : ev.event_name = "Purchase") (hoid : ev.order_id = some oid) (hne : oid ≠ "") :
    (resolvedPurchaseTrigger settings = "delivered" →
      metaServerEvents (some pid) (some tok) settings pending ev mOk
        = ({ settingsRead := true, outboundCall := false, ok := true,
             message := some "Event queued for delivery status" },
           pending ++ [{ order_id := oid, event_name := ev.event_name,
                         event_id := ev.event_id, event_data := ev,
                         trigger_status := "delivered" }])) ∧
    (resolvedPurchaseTrigger settings = "confirmed" →
      (metaServerEvents (some pid) (some tok) settings pending ev mOk).1.outboundCall = true ∧
      (metaServerEvents (some pid) (some tok) settings pending ev mOk).1.settingsRead = true ∧
      (metaServerEvents (some pid) (some tok) settings pending ev mOk).2 = pending) := by
  have hcond : (ev.event_name == "Purchase" && orderIdPresent ev) = true := by
    rw [hn]
    unfold orderIdPresent
    rw [hoid]
    simp [hne]
  constructor
  · intro htr
    unfold metaServerEvents
    rw [if_pos hcond, if_pos (by rw [htr]; rfl)]
    rw [hoid]
    rfl
  · intro htr
    have hd2 : ¬((resolvedPurchaseTrigger settings == "delivered") = true) := by
      rw [htr]
      decide
    unfold metaServerEvents
    rw [if_pos hcond, if_neg hd2]
    exact ⟨rfl, rfl, rfl⟩

/-- Witness for the amended C8 at a concrete delivered configuration. -/
theorem claim8_purchase_trigger_witness :
    metaServerEvents (some "pid") (some "tok") [("purchase_event", "delivered")] []
        evPurchase true
      = ({ settingsRead := true, outboundCall := false, ok := true,
           message := some "Event queued for delivery status" },
         [{ order_id := "ord1", event_name := evPurchase.event_name,
            event_id := evPurchase.event_id, event_data := evPurchase,
            trigger_status := "delivered" }]) :=
  (claim8_purchase_trigger "pid" "tok" [("purchase_event", "delivered")] [] evPurchase true
    "ord1" rfl rfl (by decide)).1 (by decide)

/-- Counterexample to claim C4 as stated: the duplicate query carries no
ordering, so the code compares against the first row in table order, not
the most recent one.  In dbDup the most recent same-phone order within the
window (created at 200000) multiset-matches the submitted cart, yet the
submission is accepted with status 200 instead of being rejected as a
duplicate. -/
theorem claim4_most_recent_counterexample :
    (dupOrder 2 200000 2) ∈ recentOrdersFor dbDup 400000 "0551112222" ∧
    (∀ o ∈ recentOrdersFor dbDup 400000 "0551112222", o.created_at ≤ 200000) ∧
    isDuplicateCart (itemsOf dbDup 2) (mkReq "0551112222" 2).cart_items = true ∧
    (createOrder dbDup 400000 "3.3.3.3" "ua" (mkReq "0551112222" 2) w0).1.success = true ∧
    (createOrder dbDup 400000 "3.3.3.3" "ua" (mkReq "0551112222" 2) w0).1.status = 200 := by
  refine ⟨by decide, by decide, by decide, by decide, by decide⟩

/-- Claim C4 (amended): for a request passing validation, bot verification
and both rate-limit gates, duplicate detection looks back five minutes for
same-phone orders and compares the submitted cart only against the first
such order returned by the unordered query (table order, not necessarily
the most recent); it rejects as duplicate, with the duplicate message and
status 400 and no store change, exactly when the item counts match and
every submitted pair occurs in that order's items, and otherwise never
reports the duplicate message. -/
theorem claim4_duplicate_first_returned (db : DB) (now : Nat) (ip ua : String)
    (req : OrderRequest) (w : World)
    (hv : validateOrder db req = none) (ht : w.turnstile_success = true)
    (hip : rateHit (single? (activeRateRows db now ip "ip" "create_order")) 10 = false)
    (hph : rateHit (single? (activeRateRows db now req.phone "phone" "create_order")) 3 = false) :
    (∀ o : OrderRow, (recentOrdersFor db now req.phone).head? = some o →
      (isDuplicateCart (itemsOf db o.id) req.cart_items = true →
        createOrder db now ip ua req w = (errResp msgDup 400, db)) ∧
      (isDuplicateCart (itemsOf db o.id) req.cart_items = false →
        (createOrder db now ip ua req w).1.message ≠ some msgDup)) ∧
    ((recentOrdersFor db now req.phone).head? = none →
      (createOrder db now ip ua req w).1.message ≠ some msgDup) := by
  constructor
  · intro o hhead
    constructor
    · intro hdup
      have hd : dupHit db now req = true := by
        unfold dupHit
        rw [hhead]
        exact hdup
      exact createOrder_gate_some db now ip ua req w _ _
        (gate_eval_dup db now ip req w hv ht hip hph hd)
    · intro hdup
      have hd : dupHit db now req = false := by
        unfold dupHit
        rw [hhead]
        exact hdup
      exact createOrder_msg_ne_dup db now ip ua req w hv ht hip hph hd
  · intro hhead
    have hd : dupHit db now req = false := by
      unfold dupHit
      rw [hhead]
    exact createOrder_msg_ne_dup db now ip ua req w hv ht hip hph hd

/-- Witness for the amended C4 at a concrete duplicate rejection. -/
theorem claim4_duplicate_first_returned_witness :
    createOrder dbDup 400000 "3.3.3.3" "ua" (mkReq "0551112222" 1) w0
      = (errResp msgDup 400, dbDup) :=
  ((claim4_duplicate_first_returned dbDup 400000 "3.3.3.3" "ua" (mkReq "0551112222" 1) w0
      (by decide) (by decide) (by decide) (by decide)).1 (dupOrder 1 100000 1)
      (by decide)).1 (by decide)

/-- Counterexample to claim C5 as stated: the rate-limit update filters only
on identifier, type and action, with no window condition, so in a store
where the same IP key holds an expired window (count 5, window_start 0) and
an active window (count 1), a successful order overwrites the expired
counter too: its count becomes the active count plus one instead of staying
untouched. -/
theorem claim5_expired_window_counterexample :
    ({ identifier := "9.9.9.9", identifier_type := "ip", action := "create_order",
       count := 5, window_start := 0 } : RateLimitRow) ∈ dbRate.rate_limits ∧
    ¬ (7200000 - HOUR ≤ (0 : Nat)) ∧
    (createOrder dbRate 7200000 "9.9.9.9" "ua" (mkReq "0553334444" 1) w0).1.success = true ∧
    ({ identifier := "9.9.9.9", identifier_type := "ip", action := "create_order",
       count := 5, window_start := 0 } : RateLimitRow)
      ∉ (createOrder dbRate 7200000 "9.9.9.9" "ua" (mkReq "0553334444" 1) w0).2.rate_limits ∧
    ({ identifier := "9.9.9.9", identifier_type := "ip", action := "create_order",
       count := 2, window_start := 0 } : RateLimitRow)
      ∈ (createOrder dbRate 7200000 "9.9.9.9" "ua" (mkReq "0553334444" 1) w0).2.rate_limits := by
  refine ⟨by decide, by decide, by decide, by decide, by decide⟩

/-- Claim C5 (amended): rate-limit recording runs only after the order is
persisted (a failed request leaves the counters unchanged); on success, for
each of the IP and phone keys, when an active counter was read every row of
that key, including expired-window rows, has its count set to the read
count plus one (so the active counter is incremented by exactly one), and
when no active counter was read a fresh row with count one and window_start
now is inserted while the existing rows of that key stay unchanged; rows of
other keys are never modified. -/
theorem claim5_rate_record_semantics (db : DB) (now : Nat) (ip ua : String)
    (req : OrderRequest) (w : World) :
    ((createOrder db now ip ua req w).1.success = false →
      (createOrder db now ip ua req w).2.rate_limits = db.rate_limits) ∧
    ((createOrder db now ip ua req w).1.success = true →
      (∀ row ∈ db.rate_limits,
          rateKeyMatches row ip "ip" = false → rateKeyMatches row req.phone "phone" = false →
          row ∈ (createOrder db now ip ua req w).2.rate_limits) ∧
      (∀ r, single? (activeRateRows db now ip "ip" "create_order") = some r →
        ∀ row ∈ db.rate_limits, rateKeyMatches row ip "ip" = true →
          { row with count := r.count + 1 }
            ∈ (createOrder db now ip ua req w).2.rate_limits) ∧
      (single? (activeRateRows db now ip "ip" "create_order") = none →
        ({ identifier := ip, identifier_type := "ip", action := "create_order",
           count := 1, window_start := now } : RateLimitRow)
          ∈ (createOrder db now ip ua req w).2.rate_limits ∧
        ∀ row ∈ db.rate_limits, rateKeyMatches row ip "ip" = true →
          row ∈ (createOrder db now ip ua req w).2.rate_limits) ∧
      (∀ r, single? (activeRateRows db now req.phone "phone" "create_order") = some r →
        ∀ row ∈ db.rate_limits, rateKeyMatches row req.phone "phone" = true →
          { row with count := r.count + 1 }
            ∈ (createOrder db now ip ua req w).2.rate_limits) ∧
      (single? (activeRateRows db now req.phone "phone" "create_order") = none →
        ({ identifier := req.phone, identifier_type := "phone", action := "create_order",
           count := 1, window_start := now } : RateLimitRow)
          ∈ (createOrder db now ip ua req w).2.rate_limits ∧
        ∀ row ∈ db.rate_limits, rateKeyMatches row req.phone "phone" = true →
          row ∈ (createOrder db now ip ua req w).2.rate_limits)) := by
  constructor
  · intro hfail
    exact (fail_tables db now ip ua req w hfail).2.2.1
  · intro hsucc
    obtain ⟨hg, ho, hi⟩ := success_flags db now ip ua req w hsucc
    have hr : (createOrder db now ip ua req w).2.rate_limits
        = recordRateRows
            (recordRateRows db.rate_limits now
              (single? (activeRateRows db now ip "ip" "create_order")) ip "ip") now
            (single? (activeRateRows db now req.phone "phone" "create_order"))
            req.phone "phone" := by
      rw [createOrder_gate_none db now ip ua req w hg]
      exact success_rate_limits db now ip ua req w ho hi
    rw [hr]
    refine ⟨?_, ?_, ?_, ?_, ?_⟩
    · intro row hrow h1 h2
      exact record_keep_of_no_match _ now _ req.phone "phone" row
        (record_keep_of_no_match _ now _ ip "ip" row hrow h1) h2
    · intro r hr2 row hrow hm
      rw [hr2]
      have hb := record_bump_of_match db.rate_limits now r ip "ip" row hrow hm
      have hfacts := rateKeyMatches_facts row ip "ip" hm
      have htype : ({ row with count := r.count + 1 } : RateLimitRow).identifier_type
          ≠ "phone" := by
        rw [show ({ row with count := r.count + 1 } : RateLimitRow).identifier_type
            = row.identifier_type from rfl, hfacts.2.1]
        decide
      exact record_keep_of_no_match _ now _ req.phone "phone" _ hb
        (keyMatches_false_of_type _ _ _ htype)
    · intro hnone
      rw [hnone]
      constructor
      · have hf := record_none_fresh db.rate_limits now ip "ip"
        have htype : ({ identifier := ip, identifier_type := "ip",
                        action := "create_order", count := 1,
                        window_start := now } : RateLimitRow).identifier_type ≠ "phone" :=
          fun hc => absurd (show ("ip" : String) = "phone" from hc) (by decide)
        exact record_keep_of_no_match _ now _ req.phone "phone" _ hf
          (keyMatches_false_of_type _ _ _ htype)
      · intro row hrow hm
        have hkeep := record_none_keep db.rate_limits now ip "ip" row hrow
        have hfacts := rateKeyMatches_facts row ip "ip" hm
        have htype : row.identifier_type ≠ "phone" := by
          rw [hfacts.2.1]
          decide
        exact record_keep_of_no_match _ now _ req.phone "phone" _ hkeep
          (keyMatches_false_of_type _ _ _ htype)
    · intro r hr2 row hrow hm
      rw [hr2]
      have hfacts := rateKeyMatches_facts row req.phone "phone" hm
      have htype : row.identifier_type ≠ "ip" := by
        rw [hfacts.2.1]
        decide
      have hkeep := record_keep_of_no_match db.rate_limits now
        (single? (activeRateRows db now ip "ip" "create_order")) ip "ip" row hrow
        (keyMatches_false_of_type _ _ _ htype)
      exact record_bump_of_match _ now r req.phone "phone" row hkeep hm
    · intro hnone
      rw [hnone]
      constructor
      · exact record_none_fresh _ now req.phone "phone"
      · intro row hrow hm
        have hfacts := rateKeyMatches_facts row req.phone "phone" hm
        have htype : row.identifier_type ≠ "ip" := by
          rw [hfacts.2.1]
          decide
        have hkeep := record_keep_of_no_match db.rate_limits now
          (single? (activeRateRows db now ip "ip" "create_order")) ip "ip" row hrow
          (keyMatches_false_of_type _ _ _ htype)
        exact record_none_keep _ now req.phone "phone" row hkeep

/-- Witness for the amended C5: the active IP counter of dbRate is
incremented to two by a successful order. -/
theorem claim5_rate_record_semantics_witness :
    ({ identifier := "9.9.9.9", identifier_type := "ip", action := "create_order",
       count := 2, window_start := 7199000 } : RateLimitRow)
      ∈ (createOrder dbRate 7200000 "9.9.9.9" "ua" (mkReq "0553334444" 1) w0).2.rate_limits :=
  ((claim5_rate_record_semantics dbRate 7200000 "9.9.9.9" "ua" (mkReq "0553334444" 1) w0).2
    (by decide)).2.1
    { identifier := "9.9.9.9", identifier_type := "ip", action := "create_order",
      count := 1, window_start := 7199000 } (by decide)
    { identifier := "9.9.9.9", identifier_type := "ip", action := "create_order",
      count := 1, window_start := 7199000 } (by decide) (by decide)

/-- Claim C2: a rejected create-order request (any failure class) leaves
the store without new Order rows, OrderItem rows, rate-limit increments or
insertions, and without cart deletions; the freshness hypothesis states
that the next order id is not already taken, which every well-formed store
satisfies. -/
theorem claim2_rejected_no_side_effects (db : DB) (now : Nat) (ip ua : String)
    (req : OrderRequest) (w : World)
    (hfresh : ∀ o ∈ db.orders, o.id ≠ db.next_order_id)
    (hfail : (createOrder db now ip ua req w).1.success = false) :
    (createOrder db now ip ua req w).2.orders = db.orders ∧
    (createOrder db now ip ua req w).2.order_items = db.order_items ∧
    (createOrder db now ip ua req w).2.rate_limits = db.rate_limits ∧
    (createOrder db now ip ua req w).2.carts = db.carts := by
  obtain ⟨h1, h2, h3, h4, h5⟩ := fail_tables db now ip ua req w hfail
  exact ⟨h1 hfresh, h2, h3, h4⟩

/-- Witness for C2 at a concrete rejected request (empty name). -/
theorem claim2_rejected_no_side_effects_witness :
    (createOrder db0 7200000 "1.1.1.1" "ua"
        { mkReq "0550000001" 1 with full_name := "" } w0).2.orders = db0.orders ∧
    (createOrder db0 7200000 "1.1.1.1" "ua"
        { mkReq "0550000001" 1 with full_name := "" } w0).2.order_items = db0.order_items ∧
    (createOrder db0 7200000 "1.1.1.1" "ua"
        { mkReq "0550000001" 1 with full_name := "" } w0).2.rate_limits = db0.rate_limits ∧
    (createOrder db0 7200000 "1.1.1.1" "ua"
        { mkReq "0550000001" 1 with full_name := "" } w0).2.carts = db0.carts :=
  claim2_rejected_no_side_effects db0 7200000 "1.1.1.1" "ua"
    { mkReq "0550000001" 1 with full_name := "" } w0 (by decide) (by decide)

/-- Claim C3: the rate limiter rejects before duplicate detection and
pricing, IP first then phone: whenever validation and bot verification pass
and the active IP counter has count at least ten, the request is answered
with the IP 429 response and the store is unchanged, regardless of any
duplicate or pricing state; likewise for the phone counter at three once
the IP check passes; and in the concrete scenarios ten successful orders
from one IP make the eleventh fail with 429 while exactly ten orders exist,
and three orders from one phone make the fourth fail with 429 while exactly
three orders exist. -/
theorem claim3_rate_limiter :
    (∀ (db : DB) (now : Nat) (ip ua : String) (req : OrderRequest) (w : World)
        (r : RateLimitRow),
      validateOrder db req = none → w.turnstile_success = true →
      single? (activeRateRows db now ip "ip" "create_order") = some r → 10 ≤ r.count →
      createOrder db now ip ua req w = (errResp msgRateIp 429, db)) ∧
    (∀ (db : DB) (now : Nat) (ip ua : String) (req : OrderRequest) (w : World)
        (r : RateLimitRow),
      validateOrder db req = none → w.turnstile_success = true →
      rateHit (single? (activeRateRows db now ip "ip" "create_order")) 10 = false →
      single? (activeRateRows db now req.phone "phone" "create_order") = some r →
      3 ≤ r.count →
      createOrder db now ip ua req w = (errResp msgRatePhone 429, db)) ∧
    ((runOrders db0 jobsIp w0).1.map (fun resp => resp.status)
      = [200, 200, 200, 200, 200, 200, 200, 200, 200, 200, 429]) ∧
    (runOrders db0 jobsIp w0).2.orders.length = 10 ∧
    ((runOrders db0 jobsPhone w0).1.map (fun resp => resp.status) = [200, 200, 200, 429]) ∧
    (runOrders db0 jobsPhone w0).2.orders.length = 3 := by
  refine ⟨?_, ?_, by decide, by decide, by decide, by decide⟩
  · intro db now ip ua req w r hv ht hread hcount
    have hrr : rateHit (single? (activeRateRows db now ip "ip" "create_order")) 10 = true := by
      rw [hread]
      exact decide_eq_true hcount
    exact createOrder_gate_some db now ip ua req w _ _ (gate_eval_ip db now ip req w hv ht hrr)
  · intro db now ip ua req w r hv ht hip hread hcount
    have hrr : rateHit (single? (activeRateRows db now req.phone "phone" "create_order")) 3
        = true := by
      rw [hread]
      exact decide_eq_true hcount
    exact createOrder_gate_some db now ip ua req w _ _
      (gate_eval_phone db now ip req w hv ht hip hrr)

/-- Witness for C3 at a concrete saturated IP counter. -/
theorem claim3_rate_limiter_witness :
    createOrder dbIpLimited 7200000 "8.8.8.8" "ua" (mkReq "0550000001" 1) w0
      = (errResp msgRateIp 429, dbIpLimited) :=
  claim3_rate_limiter.1 dbIpLimited 7200000 "8.8.8.8" "ua" (mkReq "0550000001" 1) w0
    rowIpFull (by decide) (by decide) (by decide) (by decide)

/-- Claim C6: when every gate passes and the order row is inserted but the
item insertion fails, the pipeline deletes the just-created order row and
answers the persistence error, so no order without items remains: orders,
order items, status history, rate limits and carts are all as before. -/
theorem claim6_items_failure_rollback (db : DB) (now : Nat) (ip ua : String)
    (req : OrderRequest) (w : World)
    (hfresh : ∀ o ∈ db.orders, o.id ≠ db.next_order_id)
    (hg : gateFailure db now ip req w = none)
    (ho : w.order_insert_error = false) (hi : w.items_insert_error = true) :
    (createOrder db now ip ua req w).1 = errResp msgPersist 500 ∧
    (createOrder db now ip ua req w).2.orders = db.orders ∧
    (createOrder db now ip ua req w).2.order_items = db.order_items ∧
    (createOrder db now ip ua req w).2.order_status_history = db.order_status_history ∧
    (createOrder db now ip ua req w).2.rate_limits = db.rate_limits ∧
    (createOrder db now ip ua req w).2.carts = db.carts := by
  rw [createOrder_gate_none db now ip ua req w hg,
    persist_items_err db now ip ua req w ho hi]
  refine ⟨rfl, ?_, rfl, rfl, rfl, rfl⟩
  dsimp only
  rw [List.filter_append, filter_id_ne db.orders _ hfresh]
  simp [orderRowFor]

/-- Witness for C6 at a concrete item-insertion failure. -/
theorem claim6_items_failure_rollback_witness :
    (createOrder db0 7200000 "1.1.1.1" "ua" (mkReq "0550000001" 1)
        { w0 with items_insert_error := true }).1 = errResp msgPersist 500 ∧
    (createOrder db0 7200000 "1.1.1.1" "ua" (mkReq "0550000001" 1)
        { w0 with items_insert_error := true }).2.orders = db0.orders ∧
    (createOrder db0 7200000 "1.1.1.1" "ua" (mkReq "0550000001" 1)
        { w0 with items_insert_error := true }).2.order_items = db0.order_items ∧
    (createOrder db0 7200000 "1.1.1.1" "ua" (mkReq "0550000001" 1)
        { w0 with items_insert_error := true }).2.order_status_history
      = db0.order_status_history ∧
    (createOrder db0 7200000 "1.1.1.1" "ua" (mkReq "0550000001" 1)
        { w0 with items_insert_error := true }).2.rate_limits = db0.rate_limits ∧
    (createOrder db0 7200000 "1.1.1.1" "ua" (mkReq "0550000001" 1)
        { w0 with items_insert_error := true }).2.carts = db0.carts :=
  claim6_items_failure_rollback db0 7200000 "1.1.1.1" "ua" (mkReq "0550000001" 1)
    { w0 with items_insert_error := true } (by decide) (by decide) (by decide) (by decide)

/-- Claim C7: when some referenced product is missing from the catalog or
inactive, order creation fails (the response is never a success) and the
store is completely unchanged: no Order rows and no OrderItem rows are
written. -/
theorem claim7_missing_or_inactive_rejected (db : DB) (now : Nat) (ip ua : String)
    (req : OrderRequest) (w : World)
    (hbad : (∃ i ∈ req.cart_items, ∀ p ∈ db.products, p.id ≠ i.product_id) ∨
            (∃ i ∈ req.cart_items, ∃ p ∈ db.products,
              p.id = i.product_id ∧ p.is_active = false)) :
    (createOrder db now ip ua req w).1.success = false ∧
    (createOrder db now ip ua req w).2 = db := by
  rcases hg : gateFailure db now ip req w with _ | e
  · exfalso
    obtain ⟨-, -, -, -, -, ⟨snaps, hsnaps⟩, hinact, -⟩ :=
      gateFailure_none_facts db now ip req w hg
    unfold cartSnaps at hsnaps
    rcases hbad with ⟨i, hi, hmiss⟩ | ⟨i, hi, p, hp, hpid, hpact⟩
    · obtain ⟨p, hfind⟩ := buildOrderItems_found _ _ _ hsnaps i hi
      have hpmem : p ∈ productsFor db (req.cart_items.map (fun i => i.product_id)) :=
        List.mem_of_find?_eq_some hfind
      have hpdb : p ∈ db.products := by
        unfold productsFor at hpmem
        exact (List.mem_filter.mp hpmem).1
      have hpeq : (p.id == i.product_id) = true :=
        find?_pred (fun p => p.id == i.product_id) _ p hfind
      exact hmiss p hpdb (by simpa using hpeq)
    · have hcontains : (req.cart_items.map (fun i => i.product_id)).contains p.id = true := by
        rw [hpid]
        exact contains_of_mem (List.mem_map_of_mem _ hi)
      have hpmem : p ∈ productsFor db (req.cart_items.map (fun i => i.product_id)) := by
        unfold productsFor
        exact List.mem_filter.mpr ⟨hp, hcontains⟩
      have hmem2 : p ∈ (productsFor db (req.cart_items.map (fun i => i.product_id))).filter
          (fun p => !p.is_active) :=
        List.mem_filter.mpr ⟨hpmem, by rw [hpact]; rfl⟩
      have hpos := List.length_pos_of_mem hmem2
      omega
  · rcases e with ⟨m, s⟩
    rw [createOrder_gate_some db now ip ua req w m s hg]
    exact ⟨rfl, rfl⟩

/-- Witness for C7 at a concrete inactive product. -/
theorem claim7_missing_or_inactive_rejected_witness :
    (createOrder dbInactive 7200000 "1.1.1.1" "ua" (mkReq "0550000001" 1) w0).1.success
      = false ∧
    (createOrder dbInactive 7200000 "1.1.1.1" "ua" (mkReq "0550000001" 1) w0).2
      = dbInactive :=
  claim7_missing_or_inactive_rejected dbInactive 7200000 "1.1.1.1" "ua"
    (mkReq "0550000001" 1) w0 (by decide)

/-- Claim C1: the pipeline never reads a client-supplied price (clearing
every client price field changes nothing), and a successful request is
answered and persisted with total equal to the sum over cart items of the
server-stored product price times the quantity plus the server-stored
shipping rate for the requested region and delivery type. -/
theorem claim1_pricing_resolver :
    (∀ (db : DB) (now : Nat) (ip ua : String) (req : OrderRequest) (w : World),
      createOrder db now ip ua (stripReq req) w = createOrder db now ip ua req w) ∧
    (∀ (db : DB) (now : Nat) (ip ua : String) (req : OrderRequest) (w : World),
      (createOrder db now ip ua req w).1.success = true →
      ∃ sr, shippingFor db req.wilaya req.delivery_type = some sr ∧ sr.is_enabled = true ∧
        (createOrder db now ip ua req w).1.total
          = some (specSubtotal db.products req.cart_items + sr.price) ∧
        ∃ o, o ∈ (createOrder db now ip ua req w).2.orders ∧
          o.subtotal = specSubtotal db.products req.cart_items ∧
          o.shipping = sr.price ∧
          o.total = specSubtotal db.products req.cart_items + sr.price) := by
  constructor
  · exact createOrder_stripReq
  · intro db now ip ua req w hsucc
    obtain ⟨hg, ho, hi⟩ := success_flags db now ip ua req w hsucc
    obtain ⟨-, -, -, -, -, ⟨snaps, hsnaps⟩, -, sr, hsr, hen⟩ :=
      gateFailure_none_facts db now ip req w hg
    have hsub : codeSubtotal ((cartSnaps db req).getD [])
        = specSubtotal db.products req.cart_items := by
      rw [hsnaps]
      exact cartSnaps_spec db req snaps hsnaps
    have hship : ((shippingFor db req.wilaya req.delivery_type).map
        (fun r => r.price)).getD 0 = sr.price := by
      rw [hsr]
      rfl
    refine ⟨sr, hsr, hen, ?_, ?_⟩
    · rw [createOrder_gate_none db now ip ua req w hg,
        persist_success db now ip ua req w ho hi]
      dsimp only
      rw [hsub, hship]
    · refine ⟨orderRowFor db now ip ua req (specSubtotal db.products req.cart_items)
        sr.price, ?_, rfl, rfl, rfl⟩
      rw [createOrder_gate_none db now ip ua req w hg,
        success_orders db now ip ua req w ho hi, hsub, hship]
      exact List.mem_append_right _ (by simp)

/-- Witness for C1 at a concrete successful order of two units. -/
theorem claim1_pricing_resolver_witness :
    ∃ sr, shippingFor db0 (mkReq "0550000001" 2).wilaya (mkReq "0550000001" 2).delivery_type
        = some sr ∧ sr.is_enabled = true ∧
      (createOrder db0 7200000 "1.1.1.1" "ua" (mkReq "0550000001" 2) w0).1.total
        = some (specSubtotal db0.products (mkReq "0550000001" 2).cart_items + sr.price) ∧
      ∃ o, o ∈ (createOrder db0 7200000 "1.1.1.1" "ua" (mkReq "0550000001" 2) w0).2.orders ∧
        o.subtotal = specSubtotal db0.products (mkReq "0550000001" 2).cart_items ∧
        o.shipping = sr.price ∧
        o.total = specSubtotal db0.products (mkReq "0550000001" 2).cart_items + sr.price :=
  claim1_pricing_resolver.2 db0 7200000 "1.1.1.1" "ua" (mkReq "0550000001" 2) w0 (by decide)

end Mojawharati
